import Mathlib

/-!
Shallow embedding of `src/simulations/GPTplot.py`, a static matplotlib
script that draws a transformer-style layer/token diagram from hard-coded
literals.  Drawing calls (`ax.add_patch`, `ax.text`, `ax.annotate`) are
modelled as constructors of `DrawOp`; a run of the script is the list of
draw operations it emits, in source order.  Python list indexing, which
raises `IndexError` out of range, is modelled by `Option`: a `none`
result is an uncaught out-of-range failure.

Coordinates: every coordinate literal in the script is an integer
multiple of 1/20 of an axis unit (0.5, 0.8, 0.2 / 4, 1.3, 0.7, `i / 20.`,
0.3, 1.2, 6.25, 0.75, 11.65, ...), and every arithmetic step stays on
that grid exactly, so axis coordinates are embedded as integers counted
in twentieths of an axis unit (`Scaled.scale` = 20).  The index
computations the claims turn on (`start_index`, the position lists) are
Python `int` arithmetic and are embedded unscaled as `Int`/`Nat`.
-/

set_option autoImplicit false

namespace GPTplot

/-- Axis-coordinate scale: coordinates are stored in twentieths of an
axis unit. -/
def scale : Int := 20

/-- Half an axis unit (the `+ 0.5` centering offset), in twentieths. -/
def half : Int := 10

/-- A color: either an entry of the `tab20` palette (by palette index), or a
named matplotlib color string such as "red". -/
inductive Color where
  | tab20 (i : Nat)
  | named (s : String)
deriving DecidableEq

/-- A 2-D point, both coordinates in twentieths of an axis unit. -/
structure Pt where
  x : Int
  y : Int
deriving DecidableEq

/-- One drawing call of the script: a rectangle patch (corner, width,
height, edge color, face color), a text label (position, string, fontsize
in points, color), or an arrow (`xy` head point, `xytext` tail point,
color).  Purely stylistic keyword arguments that are constant at each
call site (`ha`, `va`, `fontweight`, `linewidth`, `linestyle`, bbox
padding) are not modelled; the colors that distinguish call sites are. -/
inductive DrawOp where
  | rect (corner : Pt) (w : Int) (h : Int) (edge : Color) (face : Color)
  | text (pos : Pt) (s : String) (fontsize : Int) (color : Color)
  | arrow (head : Pt) (tail : Pt) (color : Color)
deriving DecidableEq

/-- Line 7: `colors = plt.cm.tab20.colors` — the tab20 palette supplies 20
colors; we model them by palette index. -/
def colors : List Color := (List.range 20).map Color.tab20

/-- Line 9. -/
def num_layers : Nat := 12

/-- Line 10. -/
def tokens : List String :=
  ["[the]", "[ e]", "[iffel]", "[ tower]", "[ is]", "[ located]", "[ in]"]

/-- Line 11: `seq_length = len(tokens)`. -/
def seq_length : Nat := tokens.length

/-- Line 12 (unused by the drawing pass). -/
def hidden_size : Nat := 768

/-- Line 14. -/
def token_positions : List Nat := List.range tokens.length

/-- Lines 16-17. -/
def accum_is : List String :=
  ["is built high", "is built high", "is built high, in Paris",
   "is built high, in Paris", "is built high, in Paris", "is built high, in Paris"]

/-- Line 18. -/
def accum_is_positions : List Int := [5, 6, 7, 8, 9, 10, 11]

/-- Line 20. -/
def accum_in : List String := ["is in?", "is in?", "is in?", "is in Paris"]

/-- Line 21. -/
def accum_in_positions : List Int := [8, 9, 10, 11]

/-- Python slice `l[-k:]`.  For `k = 0` the slice is `l[0:] = l` (since
`-0 == 0` in Python); for `k ≥ 1` it is the last `k` elements (all of `l`
when `k ≥ len(l)`). -/
def sliceLastNeg (l : List String) (k : Nat) : List String :=
  if k = 0 then l else l.drop (l.length - k)

/-- Lines 23-29: `start_index = seq_length - len(tokens)`, then clamp to 0
and slice `tokens[-seq_length:]` when negative.  Returns the final
`(start_index, tokens)` pair.  Pure Python `int` arithmetic, unscaled. -/
def rightAlign (seqLen : Nat) (toks : List String) : Int × List String :=
  let start : Int := (seqLen : Int) - (toks.length : Int)
  if start < 0 then (0, sliceLastNeg toks seqLen) else (start, toks)

/-- The spec sentence's own description of lines 23-29, for comparison
with `rightAlign`: when the tokens fit, start index `seqLen - len`; else
clamp to 0 and truncate to the last `seqLen` elements. -/
def specRightAlign (seqLen : Nat) (toks : List String) : Int × List String :=
  if (toks.length : Int) ≤ (seqLen : Int) then ((seqLen : Int) - (toks.length : Int), toks)
  else (0, toks.drop (toks.length - seqLen))

/-- The script's `start_index` after lines 23-29. -/
def start_index : Int := (rightAlign seq_length tokens).1

/-- The script's `tokens` after lines 23-29 (`tokens` is reassigned in the
clamp branch). -/
def tokensFinal : List String := (rightAlign seq_length tokens).2

/-- Line 33: `ax.set_xlim(-0.5, seq_length + 0.5)`, in twentieths. -/
def xlim : Int × Int := (-half, scale * (seq_length : Int) + half)

/-- Line 34: `ax.set_ylim(-0.3, num_layers)`, in twentieths. -/
def ylim : Int × Int := (-6, scale * (num_layers : Int))

/-- Line 38: `box_width = 0.8`, in twentieths. -/
def box_width : Int := 16

/-- Line 39: `box_height = 0.8 / 4`, in twentieths (exact: 16 / 4 = 4). -/
def box_height : Int := 16 / 4

/-- Lines 42-53: for each layer and each token column, one colored
rectangle at `(token + (1 - box_width) / 2, layer + (1 - box_height) / 2)`
— in twentieths, `1` is `scale` — with edge and face both
`colors[layer % 12]`.  The palette lookup is fallible Python indexing,
hence `Option`. -/
def gridRects : Option (List DrawOp) := do
  let rows ← (List.range num_layers).mapM (fun (layer : Nat) =>
    (List.range seq_length).mapM (fun (token : Nat) => do
      let c ← colors[layer % 12]?
      pure (DrawOp.rect
        ⟨scale * (token : Int) + (scale - box_width) / 2,
         scale * (layer : Int) + (scale - box_height) / 2⟩
        box_width box_height c c)))
  pure rows.flatten

/-- Lines 56-67: one red text label per token, at
`(start_index + i + 0.5, 0.3)` (scaled: `(scale * (start + i) + half, 6)`),
fontsize 18. -/
def tokenLabelOps (start : Int) (toks : List String) : List DrawOp :=
  toks.enum.map (fun p =>
    DrawOp.text ⟨scale * (start + (p.1 : Int)) + half, 6⟩ p.2 18 (Color.named "red"))

/-- Line 72: `from_index = 0`, constant on every iteration of the layer
loop. -/
def from_index : Int := 0

/-- The horizontal arrow the loop of lines 70-83 emits for layer `layer`
and token position `i`: head `xy = (start + i + 0.5, 0.8 + layer + i/20)`,
tail `xytext = (from_index + 0.5, 0.8 + layer + i/20)`, gray.  In
twentieths, `0.8 + layer + i/20` is `16 + scale * layer + i`. -/
def horizArrowAt (start : Int) (layer : Nat) (i : Nat) : DrawOp :=
  DrawOp.arrow
    ⟨scale * (start + (i : Int)) + half, 16 + scale * (layer : Int) + (i : Int)⟩
    ⟨scale * from_index + half, 16 + scale * (layer : Int) + (i : Int)⟩
    (Color.named "gray")

/-- Lines 70-83: for each layer in `range(num_layers - 1)` and each
`(i, target_token)` in `enumerate(tokens)`, skip via `continue` when
`target_token == '[the]'`, else draw `horizArrowAt`. -/
def horizArrowOps (start : Int) (toks : List String) : List DrawOp :=
  (List.range (num_layers - 1)).flatMap (fun layer =>
    toks.enum.filterMap (fun p =>
      if p.2 = "[the]" then none else some (horizArrowAt start layer p.1)))

/-- The script's horizontal arrows, with its actual `start_index` and
post-clamp `tokens`. -/
def horizontalArrowOps : List DrawOp := horizArrowOps start_index tokensFinal

/-- Lines 85-92: for each layer in `range(num_layers)` and each token
column, a black vertical arrow with head `(token + 0.5, layer + 1.3)` and
tail `(token + 0.5, layer + 0.7)` — scaled, head y `scale * layer + 26`,
tail y `scale * layer + 14`. -/
def vertArrowOps : List DrawOp :=
  (List.range num_layers).flatMap (fun layer =>
    (List.range seq_length).map (fun token =>
      DrawOp.arrow
        ⟨scale * (token : Int) + half, scale * (layer : Int) + 26⟩
        ⟨scale * (token : Int) + half, scale * (layer : Int) + 14⟩
        (Color.named "black")))

/-- Worker for the callout loops (lines 94-105 and 107-118): for
`i, token in enumerate(labels)` it reads `positions[i]` — fallible Python
indexing — and emits a text op at `(x, positions[i] + dy)` (scaled:
`(x, scale * positions[i] + dy)`) with bbox color `c`.  `i` is the
running enumeration index. -/
def calloutGo (x : Int) (dy : Int) (fs : Int) (c : Color) (positions : List Int) :
    Nat → List String → Option (List DrawOp)
  | _, [] => some []
  | i, t :: rest =>
    match positions[i]? with
    | none => none
    | some p =>
      match calloutGo x dy fs c positions (i + 1) rest with
      | none => none
      | some ops => some (DrawOp.text ⟨x, scale * p + dy⟩ t fs c :: ops)

/-- A callout loop: enumerate the label list, index the position list. -/
def drawCallouts (x : Int) (dy : Int) (fs : Int) (c : Color) (labels : List String)
    (positions : List Int) : Option (List DrawOp) :=
  calloutGo x dy fs c positions 0 labels

/-- Lines 94-105: the `accum_is` callouts at `(4.5, positions[i] + 1.2)`
(scaled: x = 90, dy = 24), fontsize 16, black bbox. -/
def calloutsIs : Option (List DrawOp) :=
  drawCallouts 90 24 16 (Color.named "black") accum_is accum_is_positions

/-- Lines 107-118: the `accum_in` callouts at `(6.5, positions[i] + 0.2)`
(scaled: x = 130, dy = 4), fontsize 16, red bbox. -/
def calloutsIn : Option (List DrawOp) :=
  drawCallouts 130 4 16 (Color.named "red") accum_in accum_in_positions

/-- Lines 120-152: the trailing fixed draw calls — the red
`' => [Paris]'` text at `(seq_length + 0.7, 11.65)` (scaled:
`(scale * seq_length + 14, 233)`), the dashed red rectangle at
`(6.25, 0.75)` (scaled `(125, 15)`) of size `0.5 × 0.5` (scaled 10 × 10),
and the red `'Vector\nMaschine'` label at `(6.5, 1.2)` (scaled
`(130, 24)`). -/
def trailingOps : List DrawOp :=
  [ DrawOp.text ⟨scale * (seq_length : Int) + 14, 233⟩ " => [Paris]" 16 (Color.named "red"),
    DrawOp.rect ⟨125, 15⟩ 10 10 (Color.named "red") (Color.named "none"),
    DrawOp.text ⟨130, 24⟩ "Vector\nMaschine" 12 (Color.named "red") ]

/-- Lines 154-157: the y tick labels `"Layer 1" .. "Layer 12"`. -/
def tickLabels : List String :=
  (List.range num_layers).map (fun i => "Layer " ++ toString (i + 1))

/-- The whole drawing pass, in source order.  `none` means the run raised
an uncaught out-of-range failure. -/
def runScript : Option (List DrawOp) := do
  let g ← gridRects
  let ci ← calloutsIs
  let cn ← calloutsIn
  pure (g ++ tokenLabelOps start_index tokensFinal
          ++ horizArrowOps start_index tokensFinal
          ++ vertArrowOps ++ ci ++ cn ++ trailingOps)

/-- The trace the script actually produces. -/
def mainTrace : List DrawOp := runScript.getD []

/-- The script with an ambient input environment (stdin contents, argv).
Source lines 1-161 contain only literal assignments and drawing calls: no
`input()`, no `sys.argv`, no file or environment reads, no randomness —
so the emitted trace is the same function ignoring the environment. -/
def runWithInput (_stdin : List String) (_argv : List String) : Option (List DrawOp) :=
  runScript

/-- The x coordinate of a draw op (for a rect, of its corner; for an
arrow, of its head). -/
def opX : DrawOp → Int
  | .rect c _ _ _ _ => c.x
  | .text p _ _ _ => p.x
  | .arrow h _ _ => h.x

/-- The tail (`xytext`) x coordinate of an arrow op. -/
def arrowTailX : DrawOp → Option Int
  | .arrow _ t _ => some t.x
  | _ => none

/-- The head (`xy`) y coordinate of an arrow op. -/
def arrowHeadY : DrawOp → Option Int
  | .arrow h _ _ => some h.y
  | _ => none

/-- The horizontal token index of the first drawn token label: its x
position minus the 0.5 centering offset, back in axis units. -/
def firstLabelIdx (start : Int) (toks : List String) : Option Int :=
  (tokenLabelOps start toks).head?.map (fun op => (opX op - half) / scale)

end GPTplot

namespace GPTplot

/-- Claim C1, counterexample: the two callout pairs do not both have
matching lengths — `accum_is_positions` has 7 entries while `accum_is`
has 6. -/
theorem c1_counterexample :
    ¬ (accum_is_positions.length = accum_is.length ∧
       accum_in_positions.length = accum_in.length) := by
  decide

/-- Claim C1 (amended): the `accum_in` pair has matching lengths (4 = 4),
but `accum_is_positions` is one longer than `accum_is` (7 = 6 + 1); the
extra position is never consumed by the callout loop. -/
theorem c1_lengths :
    accum_in_positions.length = accum_in.length ∧
    accum_is_positions.length = accum_is.length + 1 := by
  decide

/-- The callout worker succeeds from index `i` iff the labels run out or
every enumeration index it will use is inside the position list. -/
theorem calloutGo_isSome_iff (x dy fs : Int) (c : Color) (positions : List Int) :
    ∀ (labels : List String) (i : Nat),
      ((calloutGo x dy fs c positions i labels).isSome = true ↔
        (labels = [] ∨ i + labels.length ≤ positions.length)) := by
  intro labels
  induction labels with
  | nil =>
    intro i
    simp [calloutGo]
  | cons t rest ih =>
    intro i
    rw [calloutGo]
    cases h : positions[i]? with
    | none =>
      have hlen : positions.length ≤ i := List.getElem?_eq_none_iff.mp h
      simp only [Option.isSome_none, Bool.false_eq_true, false_iff, not_or]
      refine ⟨by simp, ?_⟩
      simp only [List.length_cons]
      omega
    | some p =>
      have hi : i < positions.length := by
        rcases List.getElem?_eq_some_iff.mp h with ⟨hlt, _⟩
        exact hlt
      cases hrec : calloutGo x dy fs c positions (i + 1) rest with
      | none =>
        have hr := (ih (i + 1)).not
        rw [hrec] at hr
        simp only [Option.isSome_none, Bool.false_eq_true, not_false_eq_true,
          true_iff, not_or, List.length_cons] at hr
        obtain ⟨hne, harith⟩ := hr
        simp only [Option.isSome_none, Bool.false_eq_true, false_iff, not_or]
        refine ⟨by simp, ?_⟩
        simp only [List.length_cons]
        omega
      | some ops =>
        have hr := ih (i + 1)
        rw [hrec] at hr
        simp only [Option.isSome_some, true_iff] at hr
        simp only [Option.isSome_some, true_iff]
        right
        simp only [List.length_cons]
        rcases hr with hnil | harith
        · subst hnil
          simp only [List.length_nil] at *
          omega
        · omega

/-- Claim C2, counterexample: the script's own `accum_is` pair is
mismatched with the position list the longer one (7 positions, 6 labels),
yet its callout loop completes without any out-of-range failure — the
claim says such a mismatch raises one. -/
theorem c2_counterexample :
    accum_is.length ≠ accum_is_positions.length ∧ calloutsIs.isSome = true := by
  decide

/-- Claim C2 (amended): the callout loop enumerates the label list and
indexes the position list, so it raises an out-of-range failure exactly
when the label list is longer than the position list; extra positions
beyond the label count are ignored, and no failure occurs when the
position list is the longer one. -/
theorem c2_callout_failure (x dy fs : Int) (c : Color) (labels : List String)
    (positions : List Int) :
    (drawCallouts x dy fs c labels positions).isSome = true ↔
      labels.length ≤ positions.length := by
  rw [drawCallouts, calloutGo_isSome_iff]
  constructor
  · rintro (hnil | harith)
    · subst hnil; simp
    · omega
  · intro hle
    right
    omega

/-- Claim C4: the grid loop adds exactly `num_layers * seq_length`
rectangles, i.e. 12 * 7 = 84, one per (layer, token) pair. -/
theorem c4_grid_count :
    Option.map List.length gridRects = some (num_layers * seq_length) ∧
    num_layers * seq_length = 84 := by
  decide

/-- Claim C6: the truncation branch of lines 27-29 is unreachable — with
`seq_length` defined as `len(tokens)` the guard `start_index < 0` is never
true, so for any token list the clamp leaves `(0, toks)` unchanged; in the
script, `start_index = 0` and `tokens` is untouched. -/
theorem c6_clamp_unreachable (toks : List String) :
    ¬ ((toks.length : Int) - (toks.length : Int) < 0) ∧
    rightAlign toks.length toks = (0, toks) ∧
    start_index = 0 ∧ tokensFinal = tokens := by
  refine ⟨by omega, ?_, by decide, by decide⟩
  simp [rightAlign]

set_option maxRecDepth 100000 in
/-- Claim C7: the script's drawing pass runs to completion with a defined
trace — every loop ranges over a fixed finite literal and every list index
(the palette lookups `colors[layer % 12]` and the callout position
lookups) is in bounds, so no step fails. -/
theorem c7_no_failure : runScript = some mainTrace := by
  decide

set_option maxRecDepth 100000 in
/-- Claim C3: in the horizontal-arrow loop, for every layer
`0 .. num_layers - 2` and every position `i` in the tokens list, the
arrow for `(layer, i)` is drawn exactly when the target token at `i` is
not the literal `'[the]'` — the skip condition inspects only the target;
the (fixed) source plays no role. -/
theorem c3_skip_target_only :
    ∀ layer : Nat, layer < num_layers - 1 →
    ∀ i : Nat, ∀ h : i < tokens.length,
      (horizArrowAt start_index layer i ∈ horizontalArrowOps ↔
        tokens.get ⟨i, h⟩ ≠ "[the]") := by
  decide

/-- Witness for C3 at layer 0, token position 1 (`'[ e]'`): the arrow is
drawn. -/
theorem c3_witness : horizArrowAt start_index 0 1 ∈ horizontalArrowOps :=
  (c3_skip_target_only 0 (by decide) 1 (by decide)).mpr (by decide)

/-- Claim C5, counterexample: with `seq_length = 0` and a nonempty token
list the clamp branch fires but Python's `tokens[-0:]` keeps the whole
list, while the claim's description truncates to the last 0 elements —
the two computations disagree. -/
theorem c5_counterexample :
    rightAlign 0 ["a"] ≠ specRightAlign 0 ["a"] ∧
    (rightAlign 0 ["a"]).2 = ["a"] := by
  decide

/-- Claim C5 (amended): when the tokens fit (`len(tokens) ≤ seq_length`)
the start index is `seq_length - len(tokens)`, the token list is kept,
and the first drawn token label sits at that horizontal index; otherwise
the start index is clamped to 0 and, provided `seq_length > 0`, the token
list is truncated to its last `seq_length` elements (for `seq_length = 0`
the Python slice `tokens[-0:]` keeps the whole list). -/
theorem c5_right_align (s : Nat) (t : List String) :
    (t.length ≤ s →
       (rightAlign s t).1 = (s : Int) - (t.length : Int) ∧
       (rightAlign s t).2 = t ∧
       (t ≠ [] → firstLabelIdx (rightAlign s t).1 (rightAlign s t).2 =
          some ((s : Int) - (t.length : Int)))) ∧
    (s < t.length →
       (rightAlign s t).1 = 0 ∧
       (0 < s → (rightAlign s t).2 = t.drop (t.length - s))) := by
  constructor
  · intro hle
    have hnot : ¬ ((s : Int) - (t.length : Int) < 0) := by omega
    have hra : rightAlign s t = ((s : Int) - (t.length : Int), t) := by
      simp only [rightAlign]
      rw [if_neg hnot]
    refine ⟨by rw [hra], by rw [hra], ?_⟩
    intro hne
    rw [hra]
    cases t with
    | nil => exact absurd rfl hne
    | cons a t' =>
      simp only [firstLabelIdx, tokenLabelOps, List.enum_cons, List.map_cons,
        List.head?_cons, Option.map_some', opX, Nat.cast_zero, add_zero]
      rw [show scale * ((s : Int) - ((a :: t').length : Int)) + half - half =
            scale * ((s : Int) - ((a :: t').length : Int)) by ring]
      rw [Int.mul_ediv_cancel_left _ (by decide : scale ≠ 0)]
  · intro hlt
    have hcond : (s : Int) - (t.length : Int) < 0 := by omega
    have hra : rightAlign s t = (0, sliceLastNeg t s) := by
      simp only [rightAlign]
      rw [if_pos hcond]
    refine ⟨by rw [hra], ?_⟩
    intro hs
    rw [hra]
    simp only [sliceLastNeg]
    rw [if_neg (by omega : ¬ s = 0)]

/-- Witness for C5: the truncation branch at `seq_length = 3` over four
tokens keeps the last three, and with the script's own values
(`seq_length = 7`, the seven-token list) the start index is 0. -/
theorem c5_witness :
    (rightAlign 3 ["a", "b", "c", "d"]).2 = ["b", "c", "d"] ∧
    (rightAlign 7 tokens).1 = 0 := by
  constructor
  · have h := ((c5_right_align 3 ["a", "b", "c", "d"]).2 (by decide)).2 (by decide)
    rw [h]
    decide
  · have h := ((c5_right_align 7 tokens).1 (by decide)).1
    rw [h]
    decide

set_option maxRecDepth 100000 in
/-- Claim C9: every horizontal inter-token arrow has its tail at the
first token column — `from_index` is the constant 0, so each tail x is
`0 + 0.5` — and with one skipped target per layer there are
`(num_layers - 1) * 6 = 66` horizontal arrows in total. -/
theorem c9_horiz_from_zero :
    horizontalArrowOps.length = (num_layers - 1) * 6 ∧
    (num_layers - 1) * 6 = 66 ∧
    from_index = 0 ∧
    (horizontalArrowOps.all fun op =>
      decide (arrowTailX op = some (scale * from_index + half))) = true := by
  decide

set_option maxRecDepth 100000 in
/-- Claim C10: the vertical-arrow loop draws one arrow per
(layer, token) pair over all `num_layers` layers — `12 * 7 = 84` arrows —
and the arrows of the topmost layer have their head at
`y = (num_layers - 1) + 1.3`, which lies above the axis's upper y-limit
of `num_layers`. -/
theorem c10_vert_arrows :
    vertArrowOps.length = num_layers * seq_length ∧
    num_layers * seq_length = 84 ∧
    ((List.range seq_length).all fun token => decide
      (DrawOp.arrow
        ⟨scale * (token : Int) + half, scale * ((num_layers : Int) - 1) + 26⟩
        ⟨scale * (token : Int) + half, scale * ((num_layers : Int) - 1) + 14⟩
        (Color.named "black") ∈ vertArrowOps)) = true ∧
    ylim.2 = scale * (num_layers : Int) ∧
    scale * (num_layers : Int) < scale * ((num_layers : Int) - 1) + 26 := by
  decide

set_option maxRecDepth 100000 in
/-- Claim C8: the script reads no input of any kind, so any two runs —
whatever ambient stdin and argv they see — emit the identical draw-call
trace, namely `mainTrace`. -/
theorem c8_deterministic (s₁ a₁ s₂ a₂ : List String) :
    runWithInput s₁ a₁ = runWithInput s₂ a₂ ∧
    runWithInput s₁ a₁ = some mainTrace := by
  refine ⟨rfl, ?_⟩
  show runScript = some mainTrace
  decide

end GPTplot
